import Mathlib

/-!
Verification of the Remodely.Ai estimate backend (`src/app.py`).

The two business-logic computations — the countertop estimate route
(`estimate`, app.py lines 177-279) and the millwork estimate route
(`millwork_estimate`, lines 281-333) — together with the pricing-table
builder (`get_pricing_data`, lines 67-89) are embedded shallowly:

* Python floats are modelled as exact rationals (ℚ); the arithmetic in the
  source is a fixed sequence of products and sums of small decimal
  constants, written here as exact fractions (1.10 = 11/10, etc.).
* JSON values arriving in the request body are modelled by `JVal`
  (number / string / boolean); a missing key is `Option.none`.
* Python exceptions inside the route's `try:` block (float() parse
  failures, `.lower()`/`.strip()` on a non-string, ZeroDivisionError) are
  modelled by `Except Unit`; the route's blanket `except` that returns an
  HTTP 500 is the `serverError` outcome, and the explicit early
  `return jsonify({"error": ...}), 400` guards are `clientError`.
* The outbound OpenAI narrative call is out of scope (spec §6): a request
  that reaches the end of the numeric computation is modelled as `ok` with
  the computed breakdown.
-/

section RatReducible

/- Mathlib marks the core `Rat` arithmetic irreducible; the source
program computes with concrete decimal numbers throughout, so concrete
evaluation of the embedded routes needs these operations to reduce. -/
set_option allowUnsafeReducibility true
attribute [local semireducible] Rat.mul Rat.add Rat.sub Rat.div Rat.neg Rat.inv Rat.floor

/-- A JSON value as it can appear for one field of the request body:
a number, a string, or a boolean. -/
inductive JVal where
  | num (q : ℚ)
  | str (s : String)
  | jbool (b : Bool)
deriving DecidableEq, Repr

/-- Python truthiness of a `JVal`: 0, the empty string and `False` are
falsy, everything else is truthy. -/
def JVal.truthy : JVal → Bool
  | .num q => decide (q ≠ 0)
  | .str s => decide (s ≠ "")
  | .jbool b => b

/-- Truthiness of `data.get(key)`: a missing key gives Python `None`,
which is falsy. -/
def truthyOpt : Option JVal → Bool
  | none => false
  | some v => v.truthy

/-- Python whitespace characters handled by `str.strip()` (the subset
relevant to this service's ASCII inputs). -/
def isPySpace (c : Char) : Bool :=
  c = ' ' || c = '\t' || c = '\n' || c = '\r'

/-- Python `str.strip()`: drop leading and trailing whitespace. -/
def pyStrip (s : String) : String :=
  ⟨((s.data.dropWhile isPySpace).reverse.dropWhile isPySpace).reverse⟩

/-- Python `str.lower()` (ASCII case mapping, which covers every string
this service compares). -/
def pyLower (s : String) : String :=
  ⟨s.data.map Char.toLower⟩

/-- Value of one decimal digit character, `none` if not a digit. -/
def charDigit (c : Char) : Option Nat :=
  if '0' ≤ c ∧ c ≤ '9' then some (c.toNat - '0'.toNat) else none

/-- Read a digit string as a natural number; `none` on any non-digit.
The empty list reads as 0 (callers enforce non-emptiness where Python
requires at least one digit). -/
def digitsVal (l : List Char) : Option Nat :=
  l.foldl
    (fun acc c =>
      match acc, charDigit c with
      | some a, some d => some (a * 10 + d)
      | _, _ => none)
    (some 0)

/-- Unsigned part of Python `float(str)` for plain decimal notation
`digits`, `digits.digits`, `digits.` or `.digits` (the forms the pricing
CSV and request bodies use; exponent/inf/nan forms are not modelled). -/
def parseUnsigned (l : List Char) : Option ℚ :=
  if l.contains '.' then
    let ip := l.takeWhile (fun c => c ≠ '.')
    let rest := (l.dropWhile (fun c => c ≠ '.')).drop 1
    if rest.contains '.' then none
    else if ip.isEmpty ∧ rest.isEmpty then none
    else
      match digitsVal ip, digitsVal rest with
      | some a, some b => some ((a : ℚ) + (b : ℚ) / (10 ^ rest.length : ℚ))
      | _, _ => none
  else if l.isEmpty then none
  else (digitsVal l).map (fun n => (n : ℚ))

/-- Python `float(str)`: strip whitespace, optional sign, decimal body.
`none` models the ValueError Python raises on an unparseable string. -/
def parseFloat (s : String) : Option ℚ :=
  match (pyStrip s).data with
  | '-' :: rest => (parseUnsigned rest).map Neg.neg
  | '+' :: rest => parseUnsigned rest
  | l => parseUnsigned l

/-- Python `float(x)` on a JSON value: numbers pass through, booleans
become 0/1, strings are parsed; `none` is a raised exception. -/
def pyFloat : JVal → Option ℚ
  | .num q => some q
  | .str s => parseFloat s
  | .jbool b => some (if b then 1 else 0)

/-- `float(x)` as a fallible step of the route body. -/
def pyFloatE (v : JVal) : Except Unit ℚ :=
  match pyFloat v with
  | some q => Except.ok q
  | none => Except.error ()

/-- `float(data.get(key))` with no default: a missing key gives `None`
and `float(None)` raises TypeError. -/
def pyFloatOptE : Option JVal → Except Unit ℚ
  | none => Except.error ()
  | some v => pyFloatE v

/-- A step that calls a string method (`.lower()` / `.strip()`) on a
value: raises AttributeError unless the value is a string. -/
def asStrE : JVal → Except Unit String
  | .str s => Except.ok s
  | _ => Except.error ()

/-- A string-method call on `data.get(key)` with no default: a missing
key gives `None`, and `None.strip()` raises AttributeError. -/
def asStrOptE : Option JVal → Except Unit String
  | none => Except.error ()
  | some v => asStrE v

/-- Whether a JSON value is a string. -/
def isStr : JVal → Bool
  | .str _ => true
  | _ => false

/-- Round to the nearest integer, ties to even — the rounding Python's
`"%.2f"` formatting applies to the (here exact) scaled value. -/
def roundHalfEven (x : ℚ) : ℤ :=
  let f := Int.floor x
  let r := x - (f : ℚ)
  if r < 1 / 2 then f
  else if 1 / 2 < r then f + 1
  else if f % 2 = 0 then f else f + 1

/-- Two-digit zero padding for the cents part. -/
def pad2 (n : Nat) : String :=
  if n < 10 then "0" ++ toString n else toString n

/-- Python `f"{x:.2f}"` on the exact rational value. -/
def formatTwoDec (q : ℚ) : String :=
  let n := roundHalfEven (q * 100)
  let a := n.natAbs
  (if n < 0 then "-" else "") ++ toString (a / 100) ++ "." ++ pad2 (a % 100)

/-- One material color's pricing entry (app.py line 88):
`{"cost": cost_sqft, "total_sqft": color_total_sqft}`. -/
structure PricingEntry where
  cost : ℚ
  total_sqft : ℚ
deriving DecidableEq, Repr

/-- One data row of the pricing CSV, by header column. -/
structure CsvRow where
  colorName : String
  costSqFt : String
  totalSqFt : String
deriving DecidableEq, Repr

/-- Dictionary key for a row: `row["Color Name"].strip().lower()`
(app.py line 79). -/
def rowKey (r : CsvRow) : String :=
  pyLower (pyStrip r.colorName)

/-- Entry built from a row (app.py lines 80-88): each numeric cell is
`float(...)` with a per-field default on parse failure — 50.0 for
Cost/SqFt, 100.0 for Total/SqFt. -/
def rowEntry (r : CsvRow) : PricingEntry :=
  { cost := (parseFloat r.costSqFt).getD 50,
    total_sqft := (parseFloat r.totalSqFt).getD 100 }

/-- `get_pricing_data` (app.py lines 67-89) restricted to its pure part:
fold the parsed CSV rows into a dictionary; a later row with the same key
overwrites an earlier one, as Python dict assignment does. -/
def get_pricing_data (rows : List CsvRow) : String → Option PricingEntry :=
  rows.foldl
    (fun m r => fun k => if k = rowKey r then some (rowEntry r) else m k)
    (fun _ => none)

/-- The countertop request body (`/api/estimate`): each field is present
(`some`) or absent (`none`). `vendor`, `jobName` and `customerName` only
feed the narrative prompt and cannot raise, so they are omitted. -/
structure EstimateData where
  totalSqFt : Option JVal := none
  color : Option JVal := none
  demo : Option JVal := none
  sinkQty : Option JVal := none
  cooktopQty : Option JVal := none
  sinkType : Option JVal := none
  cooktopType : Option JVal := none
  backsplash : Option JVal := none
  edgeDetail : Option JVal := none
  jobType : Option JVal := none
deriving DecidableEq, Repr

/-- The numeric breakdown the route computes (app.py lines 204-231);
the first seven fields are returned in the JSON `preliminary` object,
the last two feed the narrative prompt. -/
structure EstimateOutput where
  material_cost : ℚ
  sink_cost : ℚ
  cooktop_cost : ℚ
  backsplash_cost : ℚ
  labor_cost : ℚ
  preliminary_total : ℚ
  slab_count : ℤ
  total_project_cost : ℚ
  final_cost_per_sqft : String
deriving DecidableEq, Repr

/-- Outcome of a POST to `/api/estimate`: the early 400 guard, the
blanket `except` 500, or the computed breakdown. -/
inductive EstResult where
  | clientError (msg : String)
  | serverError
  | ok (r : EstimateOutput)
deriving DecidableEq, Repr

/-- Body of the `try:` block of the countertop route (app.py lines
184-231), statement by statement in source order; `throw` marks the
points where Python raises (float() parse failure, string method on a
non-string, division by zero). The pricing table is passed in as the
already-built dictionary. -/
def estimateCore (d : EstimateData) (pricing : String → Option PricingEntry) :
    Except Unit EstimateOutput := do
  let total_sq_ft ← pyFloatOptE d.totalSqFt
  let color0 ← asStrE (d.color.getD (JVal.str ""))
  let color := pyLower (pyStrip color0)
  let sink_qty ← pyFloatE (d.sinkQty.getD (JVal.num 0))
  let cooktop_qty ← pyFloatE (d.cooktopQty.getD (JVal.num 0))
  let pricing_info := (pricing color).getD { cost := 50, total_sqft := 100 }
  let price_per_sqft := pricing_info.cost
  let color_total_sqft := pricing_info.total_sqft
  let material0 := total_sq_ft * price_per_sqft
  let demo ← asStrE (d.demo.getD (JVal.str "no"))
  let material1 := if pyLower demo = "yes" then material0 * (11 / 10) else material0
  let sink_type ← asStrE (d.sinkType.getD (JVal.str "standard"))
  let sink_cost := sink_qty * (if pyLower sink_type = "premium" then 150 else 100)
  let cooktop_type ← asStrE (d.cooktopType.getD (JVal.str "standard"))
  let cooktop_cost := cooktop_qty * (if pyLower cooktop_type = "premium" then 160 else 120)
  let backsplash ← asStrE (d.backsplash.getD (JVal.str "no"))
  let backsplash_cost := if pyLower backsplash = "yes" then total_sq_ft * 20 else 0
  let edge_detail ← asStrE (d.edgeDetail.getD (JVal.str "standard"))
  let multiplier : ℚ :=
    if pyLower edge_detail = "premium" then 21 / 20
    else if pyLower edge_detail = "custom" then 11 / 10
    else 1
  let material_cost := material1 * multiplier
  let preliminary_total := material_cost + sink_cost + cooktop_cost + backsplash_cost
  let effective_sq_ft := total_sq_ft * (6 / 5)
  if color_total_sqft = 0 then throw ()
  let slab_count : ℤ := Int.ceil (effective_sq_ft / color_total_sqft)
  let job_type ← asStrE (d.jobType.getD (JVal.str "fabricate and install"))
  let markup : ℚ := if pyLower job_type = "slab only" then 27 / 20 else 13 / 10
  let labor_cost := total_sq_ft * 45 * markup
  let total_project_cost := preliminary_total + labor_cost
  let final_cost_per_sqft :=
    if total_sq_ft = 0 then "0.00" else formatTwoDec (total_project_cost / total_sq_ft)
  return { material_cost := material_cost, sink_cost := sink_cost,
           cooktop_cost := cooktop_cost, backsplash_cost := backsplash_cost,
           labor_cost := labor_cost, preliminary_total := preliminary_total,
           slab_count := slab_count, total_project_cost := total_project_cost,
           final_cost_per_sqft := final_cost_per_sqft }

/-- The `/api/estimate` POST handler (app.py lines 177-279): the falsy
guard on `data.get("totalSqFt")` returns 400, an exception anywhere in
the `try:` block returns 500, otherwise the breakdown is returned. -/
def estimate (d : EstimateData) (pricing : String → Option PricingEntry) : EstResult :=
  if truthyOpt d.totalSqFt then
    match estimateCore d pricing with
    | Except.ok r => EstResult.ok r
    | Except.error _ => EstResult.serverError
  else EstResult.clientError "Missing project data"

/-- The millwork request body (`/api/millwork-estimate`). -/
structure MillworkData where
  roomLength : Option JVal := none
  roomWidth : Option JVal := none
  cabinetStyle : Option JVal := none
  woodType : Option JVal := none
deriving DecidableEq, Repr

/-- Numeric part of the millwork response (app.py lines 295-307, 327-331). -/
structure MillworkOutput where
  area : ℚ
  estimatedCost : ℚ
deriving DecidableEq, Repr

/-- Outcome of a POST to `/api/millwork-estimate`. -/
inductive MillResult where
  | clientError (msg : String)
  | serverError
  | ok (r : MillworkOutput)
deriving DecidableEq, Repr

/-- Body of the `try:` block of the millwork route (app.py lines
290-307): floats first, then `.strip().lower()` on the two string
fields, then the multiplier chain. -/
def millworkCore (d : MillworkData) : Except Unit MillworkOutput := do
  let room_length ← pyFloatOptE d.roomLength
  let room_width ← pyFloatOptE d.roomWidth
  let cs0 ← asStrOptE d.cabinetStyle
  let cabinet_style := pyLower (pyStrip cs0)
  let wt0 ← asStrOptE d.woodType
  let wood_type := pyLower (pyStrip wt0)
  let area := room_length * room_width
  let base_cost : ℚ := 50
  let style_multiplier : ℚ :=
    if cabinet_style = "modern" then 6 / 5
    else if cabinet_style = "traditional" then 11 / 10
    else 1
  let wood_multiplier : ℚ :=
    if wood_type = "oak" then 13 / 10
    else if wood_type = "maple" then 6 / 5
    else 1
  let estimated_cost := area * base_cost * style_multiplier * wood_multiplier
  return { area := area, estimatedCost := estimated_cost }

/-- The `/api/millwork-estimate` POST handler (app.py lines 281-333):
the required-field loop returns 400 at the first falsy field, an
exception in the `try:` block returns 500. -/
def millwork_estimate (d : MillworkData) : MillResult :=
  if !truthyOpt d.roomLength then MillResult.clientError "Missing roomLength"
  else if !truthyOpt d.roomWidth then MillResult.clientError "Missing roomWidth"
  else if !truthyOpt d.cabinetStyle then MillResult.clientError "Missing cabinetStyle"
  else if !truthyOpt d.woodType then MillResult.clientError "Missing woodType"
  else
    match millworkCore d with
    | Except.ok r => MillResult.ok r
    | Except.error _ => MillResult.serverError

@[simp] theorem ok_bind {α β : Type} (a : α) (f : α → Except Unit β) :
    (Except.ok a >>= f) = f a := rfl

@[simp] theorem error_bind {α β : Type} (f : α → Except Unit β) :
    ((Except.error () : Except Unit α) >>= f) = Except.error () := rfl

@[simp] theorem throw_bind {α β : Type} (f : α → Except Unit β) :
    ((throw () : Except Unit α) >>= f) = Except.error () := rfl

@[simp] theorem pure_bind_except {α β : Type} (a : α) (f : α → Except Unit β) :
    ((pure a : Except Unit α) >>= f) = f a := rfl

@[simp] theorem pure_eq_ok {α : Type} (a : α) :
    (pure a : Except Unit α) = Except.ok a := rfl

/-- Evaluation of the countertop route on any request that takes the
successful path: the truthy guard passes, every numeric field parses,
every flag field (or its default) is a string, and the selected pricing
entry has a non-zero slab size. The output is exactly the §4.1 formula
chain. -/
theorem estimate_eval (pricing : String → Option PricingEntry)
    (d : EstimateData) (t sq cq : ℚ) (cl dm st ct bs ed jt : String)
    (htv : truthyOpt d.totalSqFt = true)
    (ht : pyFloatOptE d.totalSqFt = Except.ok t)
    (hcl : asStrE (d.color.getD (JVal.str "")) = Except.ok cl)
    (hsq : pyFloatE (d.sinkQty.getD (JVal.num 0)) = Except.ok sq)
    (hcq : pyFloatE (d.cooktopQty.getD (JVal.num 0)) = Except.ok cq)
    (hdm : asStrE (d.demo.getD (JVal.str "no")) = Except.ok dm)
    (hst : asStrE (d.sinkType.getD (JVal.str "standard")) = Except.ok st)
    (hct : asStrE (d.cooktopType.getD (JVal.str "standard")) = Except.ok ct)
    (hbs : asStrE (d.backsplash.getD (JVal.str "no")) = Except.ok bs)
    (hed : asStrE (d.edgeDetail.getD (JVal.str "standard")) = Except.ok ed)
    (hjt : asStrE (d.jobType.getD (JVal.str "fabricate and install")) = Except.ok jt)
    (hslab : ((pricing (pyLower (pyStrip cl))).getD
        { cost := 50, total_sqft := 100 }).total_sqft ≠ 0) :
    estimate d pricing = EstResult.ok
      { material_cost :=
          (if pyLower dm = "yes" then
            t * ((pricing (pyLower (pyStrip cl))).getD
              { cost := 50, total_sqft := 100 }).cost * (11 / 10)
          else
            t * ((pricing (pyLower (pyStrip cl))).getD
              { cost := 50, total_sqft := 100 }).cost) *
          (if pyLower ed = "premium" then 21 / 20
           else if pyLower ed = "custom" then 11 / 10
           else 1),
        sink_cost := sq * (if pyLower st = "premium" then 150 else 100),
        cooktop_cost := cq * (if pyLower ct = "premium" then 160 else 120),
        backsplash_cost := if pyLower bs = "yes" then t * 20 else 0,
        labor_cost := t * 45 * (if pyLower jt = "slab only" then 27 / 20 else 13 / 10),
        preliminary_total :=
          (if pyLower dm = "yes" then
            t * ((pricing (pyLower (pyStrip cl))).getD
              { cost := 50, total_sqft := 100 }).cost * (11 / 10)
          else
            t * ((pricing (pyLower (pyStrip cl))).getD
              { cost := 50, total_sqft := 100 }).cost) *
          (if pyLower ed = "premium" then 21 / 20
           else if pyLower ed = "custom" then 11 / 10
           else 1) +
          sq * (if pyLower st = "premium" then 150 else 100) +
          cq * (if pyLower ct = "premium" then 160 else 120) +
          (if pyLower bs = "yes" then t * 20 else 0),
        slab_count := Int.ceil (t * (6 / 5) /
          ((pricing (pyLower (pyStrip cl))).getD
            { cost := 50, total_sqft := 100 }).total_sqft),
        total_project_cost :=
          (if pyLower dm = "yes" then
            t * ((pricing (pyLower (pyStrip cl))).getD
              { cost := 50, total_sqft := 100 }).cost * (11 / 10)
          else
            t * ((pricing (pyLower (pyStrip cl))).getD
              { cost := 50, total_sqft := 100 }).cost) *
          (if pyLower ed = "premium" then 21 / 20
           else if pyLower ed = "custom" then 11 / 10
           else 1) +
          sq * (if pyLower st = "premium" then 150 else 100) +
          cq * (if pyLower ct = "premium" then 160 else 120) +
          (if pyLower bs = "yes" then t * 20 else 0) +
          t * 45 * (if pyLower jt = "slab only" then 27 / 20 else 13 / 10),
        final_cost_per_sqft :=
          if t = 0 then "0.00"
          else formatTwoDec
            (((if pyLower dm = "yes" then
                t * ((pricing (pyLower (pyStrip cl))).getD
                  { cost := 50, total_sqft := 100 }).cost * (11 / 10)
              else
                t * ((pricing (pyLower (pyStrip cl))).getD
                  { cost := 50, total_sqft := 100 }).cost) *
              (if pyLower ed = "premium" then 21 / 20
               else if pyLower ed = "custom" then 11 / 10
               else 1) +
              sq * (if pyLower st = "premium" then 150 else 100) +
              cq * (if pyLower ct = "premium" then 160 else 120) +
              (if pyLower bs = "yes" then t * 20 else 0) +
              t * 45 * (if pyLower jt = "slab only" then 27 / 20 else 13 / 10)) / t) } := by
  simp only [estimate, estimateCore, htv, eq_self_iff_true, if_true, ht, hcl, hsq, hcq,
    hdm, hst, hct, hbs, hed, hjt, ok_bind]
  rw [if_neg hslab]
  simp only [pure_bind_except, pure_eq_ok, ok_bind]

/-- Evaluation of the millwork route on any request that takes the
successful path: the four required fields are truthy, the two dimensions
parse as floats, and the two selection fields are strings. -/
theorem millwork_eval (d : MillworkData) (L W : ℚ) (cs wt : String)
    (hLv : truthyOpt d.roomLength = true)
    (hWv : truthyOpt d.roomWidth = true)
    (hcsv : truthyOpt d.cabinetStyle = true)
    (hwtv : truthyOpt d.woodType = true)
    (hL : pyFloatOptE d.roomLength = Except.ok L)
    (hW : pyFloatOptE d.roomWidth = Except.ok W)
    (hcs : asStrOptE d.cabinetStyle = Except.ok cs)
    (hwt : asStrOptE d.woodType = Except.ok wt) :
    millwork_estimate d = MillResult.ok
      { area := L * W,
        estimatedCost := L * W * 50 *
          (if pyLower (pyStrip cs) = "modern" then 6 / 5
           else if pyLower (pyStrip cs) = "traditional" then 11 / 10
           else 1) *
          (if pyLower (pyStrip wt) = "oak" then 13 / 10
           else if pyLower (pyStrip wt) = "maple" then 6 / 5
           else 1) } := by
  simp only [millwork_estimate, millworkCore, hLv, hWv, hcsv, hwtv, Bool.not_true,
    Bool.false_eq_true, if_false, hL, hW, hcs, hwt, ok_bind, pure_eq_ok]

/-- A string whose first character is a space keeps that space under
`str.lower()`, so it can never equal one of the lower-case keywords the
countertop calculator compares against. -/
theorem pyLower_leading_space (s : String) (h : s.data.head? = some ' ') :
    pyLower s ≠ "yes" ∧ pyLower s ≠ "premium" ∧
    pyLower s ≠ "custom" ∧ pyLower s ≠ "slab only" := by
  obtain ⟨l⟩ := s
  cases l with
  | nil => simp at h
  | cons c cs =>
    simp only [List.head?_cons, Option.some.injEq] at h
    subst h
    refine ⟨?_, ?_, ?_, ?_⟩ <;>
      simp +decide [pyLower, String.ext_iff]

/-- Normalising the default (empty) color string is a no-op. -/
theorem pyLower_pyStrip_empty : pyLower (pyStrip "") = "" := rfl

/-- C1: the concrete countertop scenario — 50 sq ft of "alpine white"
(priced 60 per sq ft, 80 sq ft per slab), one premium sink, no cooktop,
backsplash "yes", custom edge, job type "fabricate and install" — yields
materialCost 3300, sinkCost 150, cooktopCost 0, backsplashCost 1000,
preliminaryTotal 4450, slabCount 1, laborCost 2925, totalProjectCost
7375, and finalCostPerSquareFoot formatted as the string "147.50". -/
theorem c1_concrete_scenario :
    estimate
      { totalSqFt := some (JVal.num 50), color := some (JVal.str "alpine white"),
        sinkQty := some (JVal.num 1), sinkType := some (JVal.str "premium"),
        cooktopQty := some (JVal.num 0), backsplash := some (JVal.str "yes"),
        edgeDetail := some (JVal.str "custom"),
        jobType := some (JVal.str "fabricate and install") }
      (fun k => if k = "alpine white" then some { cost := 60, total_sqft := 80 } else none)
    = EstResult.ok
      { material_cost := 3300, sink_cost := 150, cooktop_cost := 0,
        backsplash_cost := 1000, labor_cost := 2925, preliminary_total := 4450,
        slab_count := 1, total_project_cost := 7375,
        final_cost_per_sqft := "147.50" } := by
  decide

/-- C2 counterexample: the claim that a client-side `InvalidInputError`
covers the string "0" and negative numbers is false on the code. The
string "0" passes the truthiness guard (non-empty strings are truthy)
and produces a computed all-zero result with finalCostPerSquareFoot
"0.00"; a negative totalSqFt produces a computed (negative) result; and
an unparseable totalSqFt surfaces as a 500 server error, not a client
error. -/
theorem c2_counterexample :
    estimate { totalSqFt := some (JVal.str "0") } (fun _ => none)
      = EstResult.ok
        { material_cost := 0, sink_cost := 0, cooktop_cost := 0, backsplash_cost := 0,
          labor_cost := 0, preliminary_total := 0, slab_count := 0,
          total_project_cost := 0, final_cost_per_sqft := "0.00" }
    ∧ estimate { totalSqFt := some (JVal.num (-5)) } (fun _ => none)
      = EstResult.ok
        { material_cost := -250, sink_cost := 0, cooktop_cost := 0, backsplash_cost := 0,
          labor_cost := -585 / 2, preliminary_total := -250, slab_count := 0,
          total_project_cost := -1085 / 2, final_cost_per_sqft := "108.50" }
    ∧ estimate { totalSqFt := some (JVal.str "abc") } (fun _ => none)
      = EstResult.serverError :=
  ⟨by decide, by decide, by decide⟩

/-- C2 (amended): the route rejects with the client error "Missing
project data" exactly when totalSqFt is absent or Python-falsy (missing
key, the number 0, the empty string, `false`); the string "0" passes
the guard and yields a computed all-zero result whose
finalCostPerSquareFoot is the defensive "0.00" (no divide-by-zero
artifact); a negative totalSqFt is accepted and yields a computed
result; and an unparseable numeric field (totalSqFt, sinkQty or
cooktopQty) surfaces as a 500 server error, not a client error. -/
theorem c2_amended :
    (∀ (d : EstimateData) (pricing : String → Option PricingEntry),
      truthyOpt d.totalSqFt = false →
      estimate d pricing = EstResult.clientError "Missing project data")
    ∧ estimate { totalSqFt := some (JVal.str "0") } (fun _ => none)
      = EstResult.ok
        { material_cost := 0, sink_cost := 0, cooktop_cost := 0, backsplash_cost := 0,
          labor_cost := 0, preliminary_total := 0, slab_count := 0,
          total_project_cost := 0, final_cost_per_sqft := "0.00" }
    ∧ estimate { totalSqFt := some (JVal.num (-5)) } (fun _ => none)
      = EstResult.ok
        { material_cost := -250, sink_cost := 0, cooktop_cost := 0, backsplash_cost := 0,
          labor_cost := -585 / 2, preliminary_total := -250, slab_count := 0,
          total_project_cost := -1085 / 2, final_cost_per_sqft := "108.50" }
    ∧ estimate { totalSqFt := some (JVal.str "abc") } (fun _ => none)
      = EstResult.serverError
    ∧ estimate { totalSqFt := some (JVal.num 10), sinkQty := some (JVal.str "abc") }
        (fun _ => none) = EstResult.serverError
    ∧ estimate { totalSqFt := some (JVal.num 10), cooktopQty := some (JVal.str "abc") }
        (fun _ => none) = EstResult.serverError := by
  refine ⟨?_, by decide, by decide, by decide, by decide, by decide⟩
  intro d pricing h
  simp [estimate, h]

/-- C2 witness: a request with no totalSqFt field is rejected with the
client error. -/
theorem c2_amended_witness :
    estimate {} (fun _ => none) = EstResult.clientError "Missing project data" :=
  c2_amended.1 {} (fun _ => none) rfl

/-- C3: on every request that reaches the result, the material cost is
totalSquareFeet times the pricing entry's cost, times 1.10 when demo
lower-cases to "yes", times the edge multiplier (1.05 for "premium",
1.10 for "custom", else 1.0), the two multipliers compounding on the
running value in that order; and edgeDetail "PREMIUM" and "premium"
yield identical material costs. -/
theorem c3_material_cost (pricing : String → Option PricingEntry)
    (d : EstimateData) (t sq cq : ℚ) (cl dm st ct bs ed jt : String)
    (htv : truthyOpt d.totalSqFt = true)
    (ht : pyFloatOptE d.totalSqFt = Except.ok t)
    (hcl : asStrE (d.color.getD (JVal.str "")) = Except.ok cl)
    (hsq : pyFloatE (d.sinkQty.getD (JVal.num 0)) = Except.ok sq)
    (hcq : pyFloatE (d.cooktopQty.getD (JVal.num 0)) = Except.ok cq)
    (hdm : asStrE (d.demo.getD (JVal.str "no")) = Except.ok dm)
    (hst : asStrE (d.sinkType.getD (JVal.str "standard")) = Except.ok st)
    (hct : asStrE (d.cooktopType.getD (JVal.str "standard")) = Except.ok ct)
    (hbs : asStrE (d.backsplash.getD (JVal.str "no")) = Except.ok bs)
    (hed : asStrE (d.edgeDetail.getD (JVal.str "standard")) = Except.ok ed)
    (hjt : asStrE (d.jobType.getD (JVal.str "fabricate and install")) = Except.ok jt)
    (hslab : ((pricing (pyLower (pyStrip cl))).getD
        { cost := 50, total_sqft := 100 }).total_sqft ≠ 0) :
    (∃ r, estimate d pricing = EstResult.ok r ∧
      r.material_cost =
        (if pyLower dm = "yes" then
          t * ((pricing (pyLower (pyStrip cl))).getD
            { cost := 50, total_sqft := 100 }).cost * (11 / 10)
        else
          t * ((pricing (pyLower (pyStrip cl))).getD
            { cost := 50, total_sqft := 100 }).cost) *
        (if pyLower ed = "premium" then 21 / 20
         else if pyLower ed = "custom" then 11 / 10
         else 1))
    ∧ (∃ r₁ r₂,
        estimate { d with edgeDetail := some (JVal.str "PREMIUM") } pricing
          = EstResult.ok r₁ ∧
        estimate { d with edgeDetail := some (JVal.str "premium") } pricing
          = EstResult.ok r₂ ∧
        r₁.material_cost = r₂.material_cost) := by
  constructor
  · exact ⟨_, estimate_eval pricing d t sq cq cl dm st ct bs ed jt htv ht hcl hsq hcq
      hdm hst hct hbs hed hjt hslab, rfl⟩
  · refine ⟨_, _,
      estimate_eval pricing _ t sq cq cl dm st ct bs "PREMIUM" jt htv ht hcl hsq hcq
        hdm hst hct hbs rfl hjt hslab,
      estimate_eval pricing _ t sq cq cl dm st ct bs "premium" jt htv ht hcl hsq hcq
        hdm hst hct hbs rfl hjt hslab, ?_⟩
    simp +decide

/-- C3 witness: the material-cost formula and the PREMIUM/premium
agreement at a concrete request (2 sq ft, unknown color, demo "YES",
edge "custom"). -/
theorem c3_material_cost_witness :
    (∃ r, estimate
        { totalSqFt := some (JVal.num 2), color := some (JVal.str "x"),
          demo := some (JVal.str "YES"), sinkQty := some (JVal.num 1),
          cooktopQty := some (JVal.num 1), sinkType := some (JVal.str "standard"),
          cooktopType := some (JVal.str "standard"), backsplash := some (JVal.str "no"),
          edgeDetail := some (JVal.str "custom"), jobType := some (JVal.str "slab only") }
        (fun _ => none) = EstResult.ok r ∧
      r.material_cost =
        (if pyLower "YES" = "yes" then
          (2 : ℚ) * (((fun _ => none : String → Option PricingEntry)
            (pyLower (pyStrip "x"))).getD { cost := 50, total_sqft := 100 }).cost * (11 / 10)
        else
          (2 : ℚ) * (((fun _ => none : String → Option PricingEntry)
            (pyLower (pyStrip "x"))).getD { cost := 50, total_sqft := 100 }).cost) *
        (if pyLower "custom" = "premium" then 21 / 20
         else if pyLower "custom" = "custom" then 11 / 10
         else 1))
    ∧ (∃ r₁ r₂,
        estimate
          { totalSqFt := some (JVal.num 2), color := some (JVal.str "x"),
            demo := some (JVal.str "YES"), sinkQty := some (JVal.num 1),
            cooktopQty := some (JVal.num 1), sinkType := some (JVal.str "standard"),
            cooktopType := some (JVal.str "standard"), backsplash := some (JVal.str "no"),
            edgeDetail := some (JVal.str "PREMIUM"), jobType := some (JVal.str "slab only") }
          (fun _ => none) = EstResult.ok r₁ ∧
        estimate
          { totalSqFt := some (JVal.num 2), color := some (JVal.str "x"),
            demo := some (JVal.str "YES"), sinkQty := some (JVal.num 1),
            cooktopQty := some (JVal.num 1), sinkType := some (JVal.str "standard"),
            cooktopType := some (JVal.str "standard"), backsplash := some (JVal.str "no"),
            edgeDetail := some (JVal.str "premium"), jobType := some (JVal.str "slab only") }
          (fun _ => none) = EstResult.ok r₂ ∧
        r₁.material_cost = r₂.material_cost) :=
  c3_material_cost (fun _ => none) _ 2 1 1 "x" "YES" "standard" "standard" "no"
    "custom" "slab only" (by decide) rfl rfl rfl rfl rfl rfl rfl rfl rfl rfl (by decide)

/-- C4: on every request that reaches the result, laborCost equals
totalSquareFeet * 45 * markup where markup is 1.35 when jobType
lower-cases to "slab only" and 1.30 otherwise; and with every optional
field absent (jobType defaulting to "fabricate and install") the labor
cost is exactly totalSquareFeet * 45 * 1.30 and the material cost is
totalSquareFeet times the entry's cost, independent of every other
input. -/
theorem c4_labor_cost (pricing : String → Option PricingEntry)
    (d : EstimateData) (t sq cq : ℚ) (cl dm st ct bs ed jt : String)
    (htv : truthyOpt d.totalSqFt = true)
    (ht : pyFloatOptE d.totalSqFt = Except.ok t)
    (hcl : asStrE (d.color.getD (JVal.str "")) = Except.ok cl)
    (hsq : pyFloatE (d.sinkQty.getD (JVal.num 0)) = Except.ok sq)
    (hcq : pyFloatE (d.cooktopQty.getD (JVal.num 0)) = Except.ok cq)
    (hdm : asStrE (d.demo.getD (JVal.str "no")) = Except.ok dm)
    (hst : asStrE (d.sinkType.getD (JVal.str "standard")) = Except.ok st)
    (hct : asStrE (d.cooktopType.getD (JVal.str "standard")) = Except.ok ct)
    (hbs : asStrE (d.backsplash.getD (JVal.str "no")) = Except.ok bs)
    (hed : asStrE (d.edgeDetail.getD (JVal.str "standard")) = Except.ok ed)
    (hjt : asStrE (d.jobType.getD (JVal.str "fabricate and install")) = Except.ok jt)
    (hslab : ((pricing (pyLower (pyStrip cl))).getD
        { cost := 50, total_sqft := 100 }).total_sqft ≠ 0) :
    (∃ r, estimate d pricing = EstResult.ok r ∧
      r.labor_cost = t * 45 * (if pyLower jt = "slab only" then 27 / 20 else 13 / 10))
    ∧ (∀ (u : ℚ) (pricing₀ : String → Option PricingEntry),
        u ≠ 0 →
        ((pricing₀ "").getD { cost := 50, total_sqft := 100 }).total_sqft ≠ 0 →
        ∃ r, estimate { totalSqFt := some (JVal.num u) } pricing₀ = EstResult.ok r ∧
          r.labor_cost = u * 45 * (13 / 10) ∧
          r.material_cost = u * ((pricing₀ "").getD { cost := 50, total_sqft := 100 }).cost) := by
  constructor
  · exact ⟨_, estimate_eval pricing d t sq cq cl dm st ct bs ed jt htv ht hcl hsq hcq
      hdm hst hct hbs hed hjt hslab, rfl⟩
  · intro u pricing₀ hu hs₀
    refine ⟨_, estimate_eval pricing₀ { totalSqFt := some (JVal.num u) } u 0 0 ""
      "no" "standard" "standard" "no" "standard" "fabricate and install"
      (by simp [truthyOpt, JVal.truthy, hu]) rfl rfl rfl rfl rfl rfl rfl rfl rfl rfl hs₀,
      by simp +decide, ?_⟩
    simp +decide [pyLower_pyStrip_empty]

/-- C4 witness: the labor formula at a concrete "slab only" request, and
the all-defaults case at totalSqFt 3 with an empty pricing table. -/
theorem c4_labor_cost_witness :
    (∃ r, estimate
        { totalSqFt := some (JVal.num 2), color := some (JVal.str "x"),
          demo := some (JVal.str "no"), sinkQty := some (JVal.num 0),
          cooktopQty := some (JVal.num 0), sinkType := some (JVal.str "standard"),
          cooktopType := some (JVal.str "standard"), backsplash := some (JVal.str "no"),
          edgeDetail := some (JVal.str "standard"), jobType := some (JVal.str "Slab Only") }
        (fun _ => none) = EstResult.ok r ∧
      r.labor_cost = (2 : ℚ) * 45 * (if pyLower "Slab Only" = "slab only" then 27 / 20 else 13 / 10))
    ∧ (∀ (u : ℚ) (pricing₀ : String → Option PricingEntry),
        u ≠ 0 →
        ((pricing₀ "").getD { cost := 50, total_sqft := 100 }).total_sqft ≠ 0 →
        ∃ r, estimate { totalSqFt := some (JVal.num u) } pricing₀ = EstResult.ok r ∧
          r.labor_cost = u * 45 * (13 / 10) ∧
          r.material_cost = u * ((pricing₀ "").getD { cost := 50, total_sqft := 100 }).cost) :=
  c4_labor_cost (fun _ => none) _ 2 0 0 "x" "no" "standard" "standard" "no" "standard"
    "Slab Only" (by decide) rfl rfl rfl rfl rfl rfl rfl rfl rfl rfl (by decide)

/-- C5: on every request that reaches the result, slabCount is the
integer ceiling of (totalSquareFeet * 1.20) divided by the entry's slab
size, and is at least 1 whenever both totalSquareFeet and the slab size
are positive; at totalSquareFeet 100 with slab size 100 it is exactly
ceil(120/100) = 2. -/
theorem c5_slab_count (pricing : String → Option PricingEntry)
    (d : EstimateData) (t sq cq : ℚ) (cl dm st ct bs ed jt : String)
    (htv : truthyOpt d.totalSqFt = true)
    (ht : pyFloatOptE d.totalSqFt = Except.ok t)
    (hcl : asStrE (d.color.getD (JVal.str "")) = Except.ok cl)
    (hsq : pyFloatE (d.sinkQty.getD (JVal.num 0)) = Except.ok sq)
    (hcq : pyFloatE (d.cooktopQty.getD (JVal.num 0)) = Except.ok cq)
    (hdm : asStrE (d.demo.getD (JVal.str "no")) = Except.ok dm)
    (hst : asStrE (d.sinkType.getD (JVal.str "standard")) = Except.ok st)
    (hct : asStrE (d.cooktopType.getD (JVal.str "standard")) = Except.ok ct)
    (hbs : asStrE (d.backsplash.getD (JVal.str "no")) = Except.ok bs)
    (hed : asStrE (d.edgeDetail.getD (JVal.str "standard")) = Except.ok ed)
    (hjt : asStrE (d.jobType.getD (JVal.str "fabricate and install")) = Except.ok jt)
    (hslab : ((pricing (pyLower (pyStrip cl))).getD
        { cost := 50, total_sqft := 100 }).total_sqft ≠ 0) :
    (∃ r, estimate d pricing = EstResult.ok r ∧
      r.slab_count = Int.ceil (t * (6 / 5) /
        ((pricing (pyLower (pyStrip cl))).getD { cost := 50, total_sqft := 100 }).total_sqft) ∧
      (0 < t →
        0 < ((pricing (pyLower (pyStrip cl))).getD
          { cost := 50, total_sqft := 100 }).total_sqft →
        1 ≤ r.slab_count))
    ∧ estimate { totalSqFt := some (JVal.num 100), color := some (JVal.str "g") }
        (fun k => if k = "g" then some { cost := 50, total_sqft := 100 } else none)
      = EstResult.ok
        { material_cost := 5000, sink_cost := 0, cooktop_cost := 0,
          backsplash_cost := 0, labor_cost := 5850, preliminary_total := 5000,
          slab_count := 2, total_project_cost := 10850,
          final_cost_per_sqft := "108.50" } := by
  constructor
  · refine ⟨_, estimate_eval pricing d t sq cq cl dm st ct bs ed jt htv ht hcl hsq hcq
      hdm hst hct hbs hed hjt hslab, rfl, ?_⟩
    intro htp hsp
    have hpos : (0 : ℚ) <
        t * (6 / 5) / ((pricing (pyLower (pyStrip cl))).getD
          { cost := 50, total_sqft := 100 }).total_sqft :=
      div_pos (by positivity) hsp
    have := Int.ceil_pos.mpr hpos
    show 1 ≤ Int.ceil (t * (6 / 5) /
      ((pricing (pyLower (pyStrip cl))).getD { cost := 50, total_sqft := 100 }).total_sqft)
    omega
  · decide

/-- C5 witness: the slab-count formula and positivity at a concrete
request (7 sq ft, unknown color, defaults elsewhere). -/
theorem c5_slab_count_witness :
    (∃ r, estimate
        { totalSqFt := some (JVal.num 7), color := some (JVal.str "q"),
          demo := some (JVal.str "no"), sinkQty := some (JVal.num 0),
          cooktopQty := some (JVal.num 0), sinkType := some (JVal.str "standard"),
          cooktopType := some (JVal.str "standard"), backsplash := some (JVal.str "no"),
          edgeDetail := some (JVal.str "standard"),
          jobType := some (JVal.str "fabricate and install") }
        (fun _ => none) = EstResult.ok r ∧
      r.slab_count = Int.ceil ((7 : ℚ) * (6 / 5) /
        (((fun _ => none : String → Option PricingEntry)
          (pyLower (pyStrip "q"))).getD { cost := 50, total_sqft := 100 }).total_sqft) ∧
      ((0 : ℚ) < 7 →
        0 < (((fun _ => none : String → Option PricingEntry)
          (pyLower (pyStrip "q"))).getD { cost := 50, total_sqft := 100 }).total_sqft →
        1 ≤ r.slab_count))
    ∧ estimate { totalSqFt := some (JVal.num 100), color := some (JVal.str "g") }
        (fun k => if k = "g" then some { cost := 50, total_sqft := 100 } else none)
      = EstResult.ok
        { material_cost := 5000, sink_cost := 0, cooktop_cost := 0,
          backsplash_cost := 0, labor_cost := 5850, preliminary_total := 5000,
          slab_count := 2, total_project_cost := 10850,
          final_cost_per_sqft := "108.50" } :=
  c5_slab_count (fun _ => none) _ 7 0 0 "q" "no" "standard" "standard" "no" "standard"
    "fabricate and install" (by decide) rfl rfl rfl rfl rfl rfl rfl rfl rfl rfl (by decide)

/-- C6: default substitution is confined to the pricing table — a row
whose Cost/SqFt (resp. Total/SqFt) cell fails to parse gets 50.0
(resp. 100.0) without aborting the table build; when two rows share a
trimmed lower-cased color name the last one wins; and a lookup for a
color absent from the table computes with cost 50 and slab size 100
without raising. -/
theorem c6_pricing_defaults :
    (∀ r : CsvRow, parseFloat r.costSqFt = none → (rowEntry r).cost = 50)
    ∧ (∀ r : CsvRow, parseFloat r.totalSqFt = none → (rowEntry r).total_sqft = 100)
    ∧ (∀ (rows : List CsvRow) (r : CsvRow) (k : String),
        get_pricing_data (rows ++ [r]) k =
          if k = rowKey r then some (rowEntry r) else get_pricing_data rows k)
    ∧ (∀ (pricing : String → Option PricingEntry) (cl : String) (t : ℚ),
        t ≠ 0 → pricing (pyLower (pyStrip cl)) = none →
        ∃ r, estimate { totalSqFt := some (JVal.num t), color := some (JVal.str cl) }
            pricing = EstResult.ok r ∧
          r.material_cost = t * 50 ∧
          r.slab_count = Int.ceil (t * (6 / 5) / 100)) := by
  refine ⟨?_, ?_, ?_, ?_⟩
  · intro r h
    simp [rowEntry, h]
  · intro r h
    simp [rowEntry, h]
  · intro rows r k
    simp [get_pricing_data, List.foldl_append]
  · intro pricing cl t htz hlook
    refine ⟨_, estimate_eval pricing
      { totalSqFt := some (JVal.num t), color := some (JVal.str cl) } t 0 0 cl
      "no" "standard" "standard" "no" "standard" "fabricate and install"
      (by simp [truthyOpt, JVal.truthy, htz]) rfl rfl rfl rfl rfl rfl rfl rfl rfl rfl
      (by rw [hlook]; decide), ?_, ?_⟩
    · simp +decide [hlook]
    · simp +decide [hlook]

/-- C6 witness: an unparseable cost cell gets 50, an unparseable slab
cell gets 100, the later of two rows for "white" wins, and a request
for an unknown color computes with the 50/100 defaults. -/
theorem c6_pricing_defaults_witness :
    (rowEntry { colorName := "x", costSqFt := "abc", totalSqFt := "12.5" }).cost = 50
    ∧ (rowEntry { colorName := "x", costSqFt := "7", totalSqFt := "zz" }).total_sqft = 100
    ∧ get_pricing_data
        [{ colorName := "White", costSqFt := "1", totalSqFt := "2" },
         { colorName := " white ", costSqFt := "3", totalSqFt := "4" }] "white"
      = some { cost := 3, total_sqft := 4 }
    ∧ (∃ r, estimate
        { totalSqFt := some (JVal.num 4), color := some (JVal.str "missing color") }
        (fun _ => none) = EstResult.ok r ∧
      r.material_cost = (4 : ℚ) * 50 ∧
      r.slab_count = Int.ceil ((4 : ℚ) * (6 / 5) / 100)) := by
  refine ⟨c6_pricing_defaults.1 _ (by decide), c6_pricing_defaults.2.1 _ (by decide),
    ?_, c6_pricing_defaults.2.2.2 (fun _ => none) "missing color" 4 (by decide) rfl⟩
  have h := c6_pricing_defaults.2.2.1
    [{ colorName := "White", costSqFt := "1", totalSqFt := "2" }]
    { colorName := " white ", costSqFt := "3", totalSqFt := "4" } "white"
  rw [show ([{ colorName := "White", costSqFt := "1", totalSqFt := "2" },
      { colorName := " white ", costSqFt := "3", totalSqFt := "4" }] : List CsvRow)
    = [{ colorName := "White", costSqFt := "1", totalSqFt := "2" }] ++
      [{ colorName := " white ", costSqFt := "3", totalSqFt := "4" }] from rfl, h]
  decide

/-- C7: a millwork request with positive dimensions and non-empty style
and wood strings returns area = roomLength * roomWidth and
estimatedCost = area * 50 * styleMultiplier * woodMultiplier, the
multipliers selected by the normalised comparisons against
"modern"/"traditional" and "oak"/"maple"; in particular 10 x 4 with
"Modern" cabinets in "Oak" yields area 40 and cost 3120. -/
theorem c7_millwork (L W : ℚ) (cs wt : String)
    (hL : 0 < L) (hW : 0 < W) (hcs : cs ≠ "") (hwt : wt ≠ "") :
    millwork_estimate
      { roomLength := some (JVal.num L), roomWidth := some (JVal.num W),
        cabinetStyle := some (JVal.str cs), woodType := some (JVal.str wt) }
    = MillResult.ok
      { area := L * W,
        estimatedCost := L * W * 50 *
          (if pyLower (pyStrip cs) = "modern" then 6 / 5
           else if pyLower (pyStrip cs) = "traditional" then 11 / 10
           else 1) *
          (if pyLower (pyStrip wt) = "oak" then 13 / 10
           else if pyLower (pyStrip wt) = "maple" then 6 / 5
           else 1) }
    ∧ millwork_estimate
      { roomLength := some (JVal.num 10), roomWidth := some (JVal.num 4),
        cabinetStyle := some (JVal.str "Modern"), woodType := some (JVal.str "Oak") }
    = MillResult.ok { area := 40, estimatedCost := 3120 } := by
  refine ⟨millwork_eval _ L W cs wt
    (by simp [truthyOpt, JVal.truthy, hL.ne'])
    (by simp [truthyOpt, JVal.truthy, hW.ne'])
    (by simp [truthyOpt, JVal.truthy, hcs])
    (by simp [truthyOpt, JVal.truthy, hwt]) rfl rfl rfl rfl, by decide⟩

/-- C7 witness: 3 x 2 with "traditional" cabinets in "maple" wood
evaluates through the general formula. -/
theorem c7_millwork_witness :
    millwork_estimate
      { roomLength := some (JVal.num 3), roomWidth := some (JVal.num 2),
        cabinetStyle := some (JVal.str "traditional"), woodType := some (JVal.str "maple") }
    = MillResult.ok { area := 6, estimatedCost := 396 } := by
  have h := (c7_millwork 3 2 "traditional" "maple"
    (by norm_num) (by norm_num) (by decide) (by decide)).1
  rw [h]
  decide

/-- C8: the two calculators treat surrounding whitespace asymmetrically.
The millwork calculator strips before comparing, so any non-empty
cabinetStyle whose stripped lower-casing is "modern" still gets the 1.2
multiplier; the countertop calculator only lower-cases, so a value with
a leading space in any of its six flag/tier fields falls through to the
standard/default branch. -/
theorem c8_whitespace_asymmetry :
    (∀ cs : String, cs ≠ "" → pyLower (pyStrip cs) = "modern" →
      millwork_estimate
        { roomLength := some (JVal.num 10), roomWidth := some (JVal.num 4),
          cabinetStyle := some (JVal.str cs), woodType := some (JVal.str "Oak") }
      = MillResult.ok { area := 40, estimatedCost := 3120 })
    ∧ (∀ (s : String) (t sq cq : ℚ), s.data.head? = some ' ' → t ≠ 0 →
        ∃ r, estimate
            { totalSqFt := some (JVal.num t), demo := some (JVal.str s),
              sinkQty := some (JVal.num sq), cooktopQty := some (JVal.num cq),
              sinkType := some (JVal.str s), cooktopType := some (JVal.str s),
              backsplash := some (JVal.str s), edgeDetail := some (JVal.str s),
              jobType := some (JVal.str s) } (fun _ => none) = EstResult.ok r ∧
          r.material_cost = t * 50 ∧ r.sink_cost = sq * 100 ∧
          r.cooktop_cost = cq * 120 ∧ r.backsplash_cost = 0 ∧
          r.labor_cost = t * 45 * (13 / 10)) := by
  constructor
  · intro cs hne hmod
    rw [millwork_eval
      { roomLength := some (JVal.num 10), roomWidth := some (JVal.num 4),
        cabinetStyle := some (JVal.str cs), woodType := some (JVal.str "Oak") }
      10 4 cs "Oak" rfl rfl
      (by simp [truthyOpt, JVal.truthy, hne]) rfl rfl rfl rfl rfl, hmod]
    decide
  · intro s t sq cq hsp htz
    obtain ⟨h1, h2, h3, h4⟩ := pyLower_leading_space s hsp
    refine ⟨_, estimate_eval (fun _ => none)
      { totalSqFt := some (JVal.num t), demo := some (JVal.str s),
        sinkQty := some (JVal.num sq), cooktopQty := some (JVal.num cq),
        sinkType := some (JVal.str s), cooktopType := some (JVal.str s),
        backsplash := some (JVal.str s), edgeDetail := some (JVal.str s),
        jobType := some (JVal.str s) } t sq cq "" s s s s s s
      (by simp [truthyOpt, JVal.truthy, htz]) rfl rfl rfl rfl rfl rfl rfl rfl rfl rfl
      (by decide), ?_, ?_, ?_, ?_, ?_⟩ <;>
      simp +decide [h1, h2, h3, h4]

/-- C8 witness: " Modern " still gets the millwork 1.2 multiplier, while
" premium " (and the like) in every countertop flag field drops to the
default branch at a concrete request. -/
theorem c8_whitespace_asymmetry_witness :
    millwork_estimate
      { roomLength := some (JVal.num 10), roomWidth := some (JVal.num 4),
        cabinetStyle := some (JVal.str " Modern "), woodType := some (JVal.str "Oak") }
    = MillResult.ok { area := 40, estimatedCost := 3120 }
    ∧ (∃ r, estimate
          { totalSqFt := some (JVal.num 10), demo := some (JVal.str " premium "),
            sinkQty := some (JVal.num 2), cooktopQty := some (JVal.num 3),
            sinkType := some (JVal.str " premium "), cooktopType := some (JVal.str " premium "),
            backsplash := some (JVal.str " premium "), edgeDetail := some (JVal.str " premium "),
            jobType := some (JVal.str " premium ") } (fun _ => none) = EstResult.ok r ∧
        r.material_cost = (10 : ℚ) * 50 ∧ r.sink_cost = (2 : ℚ) * 100 ∧
        r.cooktop_cost = (3 : ℚ) * 120 ∧ r.backsplash_cost = 0 ∧
        r.labor_cost = (10 : ℚ) * 45 * (13 / 10)) :=
  ⟨c8_whitespace_asymmetry.1 " Modern " (by decide) (by decide),
   c8_whitespace_asymmetry.2 " premium " 10 2 3 (by decide) (by decide)⟩

/-- C9: the slab-count division is unguarded — whenever the pricing
entry selected for the request's color has slab size 0, the request
fails with a server error (the modelled ZeroDivisionError) instead of
returning a result; and a CSV Total/SqFt cell holding the parseable
string "0" produces exactly such an entry, so an estimate against that
table fails with a server error. -/
theorem c9_zero_divisor (pricing : String → Option PricingEntry)
    (d : EstimateData) (t sq cq : ℚ) (cl dm st ct bs ed : String)
    (htv : truthyOpt d.totalSqFt = true)
    (ht : pyFloatOptE d.totalSqFt = Except.ok t)
    (hcl : asStrE (d.color.getD (JVal.str "")) = Except.ok cl)
    (hsq : pyFloatE (d.sinkQty.getD (JVal.num 0)) = Except.ok sq)
    (hcq : pyFloatE (d.cooktopQty.getD (JVal.num 0)) = Except.ok cq)
    (hdm : asStrE (d.demo.getD (JVal.str "no")) = Except.ok dm)
    (hst : asStrE (d.sinkType.getD (JVal.str "standard")) = Except.ok st)
    (hct : asStrE (d.cooktopType.getD (JVal.str "standard")) = Except.ok ct)
    (hbs : asStrE (d.backsplash.getD (JVal.str "no")) = Except.ok bs)
    (hed : asStrE (d.edgeDetail.getD (JVal.str "standard")) = Except.ok ed)
    (hslab0 : ((pricing (pyLower (pyStrip cl))).getD
        { cost := 50, total_sqft := 100 }).total_sqft = 0) :
    estimate d pricing = EstResult.serverError
    ∧ get_pricing_data
        [{ colorName := "alpine white", costSqFt := "60", totalSqFt := "0" }] "alpine white"
      = some { cost := 60, total_sqft := 0 }
    ∧ estimate { totalSqFt := some (JVal.num 50), color := some (JVal.str "alpine white") }
        (get_pricing_data
          [{ colorName := "alpine white", costSqFt := "60", totalSqFt := "0" }])
      = EstResult.serverError := by
  refine ⟨?_, by decide, by decide⟩
  simp only [estimate, estimateCore, htv, eq_self_iff_true, if_true, ht, hcl, hsq, hcq,
    hdm, hst, hct, hbs, hed, ok_bind]
  rw [if_pos hslab0]
  simp only [throw_bind, error_bind]

/-- C9 witness: a request for a color whose table entry has slab size 0
fails with a server error. -/
theorem c9_zero_divisor_witness :
    estimate { totalSqFt := some (JVal.num 7), color := some (JVal.str "bad") }
      (fun k => if k = "bad" then some { cost := 10, total_sqft := 0 } else none)
    = EstResult.serverError
    ∧ get_pricing_data
        [{ colorName := "alpine white", costSqFt := "60", totalSqFt := "0" }] "alpine white"
      = some { cost := 60, total_sqft := 0 }
    ∧ estimate { totalSqFt := some (JVal.num 50), color := some (JVal.str "alpine white") }
        (get_pricing_data
          [{ colorName := "alpine white", costSqFt := "60", totalSqFt := "0" }])
      = EstResult.serverError :=
  c9_zero_divisor
    (fun k => if k = "bad" then some { cost := 10, total_sqft := 0 } else none)
    { totalSqFt := some (JVal.num 7), color := some (JVal.str "bad") }
    7 0 0 "bad" "no" "standard" "standard" "no" "standard"
    (by decide) rfl rfl rfl rfl rfl rfl rfl rfl rfl (by decide)

/-- C10: every flag/tier field of the countertop request (demo,
sinkType, cooktopType, backsplash, edgeDetail, jobType) must be a
string when present — any non-string JSON value there (a number or a
boolean, e.g. JSON `true`) makes the case-normalisation call raise, and
the request fails with a server error rather than treating the value as
"yes". -/
theorem c10_nonstring_flags (v : JVal) (hv : isStr v = false) :
    estimate { totalSqFt := some (JVal.num 1), demo := some v } (fun _ => none)
      = EstResult.serverError
    ∧ estimate { totalSqFt := some (JVal.num 1), sinkType := some v } (fun _ => none)
      = EstResult.serverError
    ∧ estimate { totalSqFt := some (JVal.num 1), cooktopType := some v } (fun _ => none)
      = EstResult.serverError
    ∧ estimate { totalSqFt := some (JVal.num 1), backsplash := some v } (fun _ => none)
      = EstResult.serverError
    ∧ estimate { totalSqFt := some (JVal.num 1), edgeDetail := some v } (fun _ => none)
      = EstResult.serverError
    ∧ estimate { totalSqFt := some (JVal.num 1), jobType := some v } (fun _ => none)
      = EstResult.serverError := by
  cases v with
  | num q => exact ⟨rfl, rfl, rfl, rfl, rfl, rfl⟩
  | str s => simp [isStr] at hv
  | jbool b => exact ⟨rfl, rfl, rfl, rfl, rfl, rfl⟩

/-- C10 witness: JSON `true` in any of the six flag/tier fields yields a
server error, never a "yes". -/
theorem c10_nonstring_flags_witness :
    estimate { totalSqFt := some (JVal.num 1), demo := some (JVal.jbool true) }
      (fun _ => none) = EstResult.serverError
    ∧ estimate { totalSqFt := some (JVal.num 1), sinkType := some (JVal.jbool true) }
      (fun _ => none) = EstResult.serverError
    ∧ estimate { totalSqFt := some (JVal.num 1), cooktopType := some (JVal.jbool true) }
      (fun _ => none) = EstResult.serverError
    ∧ estimate { totalSqFt := some (JVal.num 1), backsplash := some (JVal.jbool true) }
      (fun _ => none) = EstResult.serverError
    ∧ estimate { totalSqFt := some (JVal.num 1), edgeDetail := some (JVal.jbool true) }
      (fun _ => none) = EstResult.serverError
    ∧ estimate { totalSqFt := some (JVal.num 1), jobType := some (JVal.jbool true) }
      (fun _ => none) = EstResult.serverError :=
  c10_nonstring_flags (JVal.jbool true) rfl

end RatReducible
